import Mathlib

/-!
Shallow embedding of the credential-retry streaming agent
(`strands_confluence.py`): the StreamingQueue channel, the keyword
classifier `needs_authentication`, the authentication gate
`handle_authentication`, the orchestrator `agent_task`, the entrypoint
`agent_invocation`, and the Confluence tool functions.  External
collaborators (the LLM agent, the OAuth provider, HTTP) are modelled as
oracles supplying their observable outcomes; everything the repository's
own code computes is translated directly from the source.
-/

/-! ## String helpers (Python `in` and `str.lower`) -/

/-- Boolean prefix test on character lists (left operand is the candidate
prefix).  Used to model Python's substring operator. -/
def isPref : List Char → List Char → Bool
  | [], _ => true
  | _ :: _, [] => false
  | a :: n, b :: h => a == b && isPref n h

/-- Boolean substring test on character lists: `isSub n h` is Python's
`n in h` for strings (true for the empty needle). -/
def isSub (n : List Char) : List Char → Bool
  | [] => isPref n []
  | b :: h => isPref n (b :: h) || isSub n h

/-- Model of Python `s.lower()` as a character list (ASCII case folding;
all strings appearing in the program are ASCII or caseless Japanese). -/
def pyLower (s : String) : List Char := s.toList.map Char.toLower

/-- Python truthiness of an optional string: `not x` is true for `None`
and for the empty string. -/
def pyFalsy : Option String → Bool
  | none => true
  | some s => s.isEmpty

/-- Python `f"{x}"` rendering of an optional string (`None` prints as
`"None"`). -/
def pyStr : Option String → String
  | none => "None"
  | some s => s

/-- Boolean string-prefix test, via the underlying character lists. -/
def strStarts (p s : String) : Bool := isPref p.toList s.toList

/-! ## The fixed keyword set and the classifier (source lines 34–49, 378–380) -/

/-- AUTH_KEYWORDS from the source: the fixed multilingual keyword set. -/
def AUTH_KEYWORDS : List String :=
  ["authentication", "authorize", "authorization", "auth", "sign in",
   "login", "access", "permission", "credential",
   "認証", "アクセス", "許可", "権限", "ログイン"]

/-- `needs_authentication` from the source:
`any(keyword.lower() in response_text.lower() for keyword in AUTH_KEYWORDS)`. -/
def needs_authentication (response_text : String) : Bool :=
  AUTH_KEYWORDS.any (fun keyword => isSub (pyLower keyword) (pyLower response_text))

/-! ## StreamingQueue (source lines 334–356)

The queue items of the Python program are arbitrary objects with `None`
as the terminal sentinel pushed by `finish()`; we model an item slot as
`Option α` with `none` playing the role of `None`. -/

/-- The StreamingQueue class state: the `finished` flag and the FIFO
buffer of the inner `asyncio.Queue`. -/
structure StreamingQueue (α : Type) where
  finished : Bool
  queue : List (Option α)
deriving DecidableEq

/-- `__init__`: `finished = False`, empty queue. -/
def StreamingQueue.init {α : Type} : StreamingQueue α :=
  { finished := false, queue := [] }

/-- `put(item)`: enqueue at the tail. -/
def StreamingQueue.put {α : Type} (q : StreamingQueue α) (item : Option α) :
    StreamingQueue α :=
  { q with queue := q.queue ++ [item] }

/-- `finish()`: set the flag, then enqueue the `None` sentinel. -/
def StreamingQueue.finish {α : Type} (q : StreamingQueue α) : StreamingQueue α :=
  { finished := true, queue := q.queue ++ [none] }

/-- A sequence of `put` calls, in order. -/
def StreamingQueue.putAll {α : Type} (q : StreamingQueue α) (es : List (Option α)) :
    StreamingQueue α :=
  es.foldl StreamingQueue.put q

/-- One complete run of the `stream()` consumer loop over a buffer, with
the `finished` flag fixed (no producer runs concurrently with the drain
in the scenarios modelled here).  Returns the items yielded, the part of
the buffer left unconsumed, and whether the loop hit its `break`
(`item is None and self.finished`); an exhausted buffer without a break
means the consumer is left blocked on `queue.get()`. -/
def streamRun {α : Type} (fin : Bool) :
    List (Option α) → List (Option α) × List (Option α) × Bool
  | [] => ([], [], false)
  | item :: rest =>
    if item.isNone && fin then ([], rest, true)
    else
      let r := streamRun fin rest
      (item :: r.1, r.2.1, r.2.2)

/-! ## Basic lemmas about the string helpers -/

theorem isPref_iff (n h : List Char) :
    isPref n h = true ↔ ∃ r, h = n ++ r := by
  induction n generalizing h with
  | nil => simp [isPref]
  | cons a n ih =>
    cases h with
    | nil => simp [isPref]
    | cons b h =>
      simp only [isPref, Bool.and_eq_true, beq_iff_eq, ih, List.cons_append,
        List.cons.injEq]
      constructor
      · rintro ⟨rfl, r, rfl⟩; exact ⟨r, rfl, rfl⟩
      · rintro ⟨r, rfl, rfl⟩; exact ⟨rfl, r, rfl⟩

theorem isSub_iff (n h : List Char) :
    isSub n h = true ↔ ∃ l r, h = l ++ n ++ r := by
  induction h with
  | nil =>
    simp only [isSub, isPref_iff]
    constructor
    · rintro ⟨r, hr⟩
      exact ⟨[], r, by simpa using hr⟩
    · rintro ⟨l, r, hlr⟩
      cases l with
      | nil => exact ⟨r, by simpa using hlr⟩
      | cons c cs => simp at hlr
  | cons b h ih =>
    simp only [isSub, Bool.or_eq_true, isPref_iff, ih]
    constructor
    · rintro (⟨r, hr⟩ | ⟨l, r, rfl⟩)
      · exact ⟨[], r, by simpa using hr⟩
      · exact ⟨b :: l, r, by simp⟩
    · rintro ⟨l, r, hlr⟩
      cases l with
      | nil => exact Or.inl ⟨r, by simpa using hlr⟩
      | cons c cs =>
        simp only [List.cons_append, List.cons.injEq] at hlr
        exact Or.inr ⟨cs, r, by simp [hlr.2]⟩

theorem isPref_append_self (n r : List Char) : isPref n (n ++ r) = true := by
  rw [isPref_iff]; exact ⟨r, rfl⟩

/-! ## Global state and external-world oracles

The program keeps four module-level globals (source lines 27–31).  The
`token_metadata` dict only ever receives the single key `"exp_time"`, so
we model it as the optional value stored under that key. -/

/-- The module-level mutable globals of the program. -/
structure GState where
  atlassian_access_token : Option String
  atlassian_cloud_id : Option String
  tool_name : Option String
  token_metadata : Option String
deriving DecidableEq

/-- The initial globals: every token-related global starts as `None`
and `token_metadata` as the empty dict. -/
def initGState : GState :=
  { atlassian_access_token := none, atlassian_cloud_id := none,
    tool_name := none, token_metadata := none }

/-- A content item of an agent response message: a dict carrying a
`"text"` entry, or anything else (which contributes no text). -/
inductive MsgItem
  | textItem (t : String)
  | otherItem
deriving DecidableEq

/-- An agent response message: a dict whose `"content"` is a list of
items, or any other object whose `str()` rendering is the given text. -/
inductive ResponseMessage
  | contentMsg (items : List MsgItem)
  | rawMsg (s : String)
deriving DecidableEq

/-- The text contributed by one content item. -/
def itemText : MsgItem → String
  | MsgItem.textItem t => t
  | MsgItem.otherItem => ""

/-- `extract_response_text` from the source: join the `"text"` entries of
a dict message's content list, else fall back to `str(message)`. -/
def extract_response_text : ResponseMessage → String
  | ResponseMessage.contentMsg items => String.join (items.map itemText)
  | ResponseMessage.rawMsg s => s

/-- One item travelling on the StreamingQueue: a status string or a raw
agent response message (the sentinel `None` is the `Option` layer added
by the queue model). -/
inductive QItem
  | text (s : String)
  | msg (m : ResponseMessage)
deriving DecidableEq

/-- JWT claims as far as the program reads them (`decode_token_info`). -/
structure JwtClaims where
  iss : Option String
  sub : Option String
  aud : Option String
  exp : Option Int
  iat : Option Int
  scope : Option String

/-- An entry of the accessible-resources JSON array; the program reads
only its `"id"` field. -/
structure AtlassianResource where
  id : String
deriving DecidableEq

/-- The observable outcome of the accessible-resources HTTP GET:
status code and the parsed JSON array. -/
structure AccessibleResourcesResponse where
  status_code : Nat
  resources : List AtlassianResource
deriving DecidableEq

/-- Outcome of one run of the external authorization flow driven by the
`requires_access_token` decorator: the authorization URLs surfaced to the
`on_auth_url` callback (in order), then either the minted bearer token or
the exception it raised. -/
structure FlowResult where
  urls : List String
  outcome : Except String String

/-- Oracle for every external collaborator reachable from the
orchestrator: the agent invocation (indexed by call number, given the
user message; `Except.error` models a raised exception), the
authorization flow, the accessible-resources lookup (`Except.error`
models a raised request), `jwt.decode` (`none` models a raised decode),
and `datetime`/`strftime` formatting of an expiry timestamp. -/
structure Oracle where
  agent : Nat → String → Except String ResponseMessage
  flow : FlowResult
  accessible : String → Except String AccessibleResourcesResponse
  decode : String → Option JwtClaims
  formatTime : Int → String

/-- HTTP status constant from the source. -/
def HTTP_OK : Nat := 200

/-! ## decode_token_info and need_atlassian_token_async (source 86–99, 436–463) -/

/-- The metadata dict built by `decode_token_info` on success; string
fields default to `"N/A"`, and `exp`/`iat` keep `none` for `"N/A"`. -/
structure TokenInfo where
  iss : String
  sub : String
  aud : String
  exp : Option Int
  iat : Option Int
  scopes : Option String
deriving DecidableEq

/-- `decode_token_info` from the source: decode the token without
signature verification and project the claims; any exception yields the
empty dict (modelled as `none`). -/
def decode_token_info (decode : String → Option JwtClaims) (access_token : String) :
    Option TokenInfo :=
  match decode access_token with
  | none => none
  | some d =>
    some { iss := d.iss.getD "N/A", sub := d.sub.getD "N/A",
           aud := d.aud.getD "N/A", exp := d.exp, iat := d.iat,
           scopes := d.scope }

/-- The decorated body of `need_atlassian_token_async`, run once the flow
has produced `access_token`: best-effort metadata extraction, then store
the token in the globals and return it. -/
def need_token_body (o : Oracle) (access_token : String) (g : GState) : GState :=
  let token_info := decode_token_info o.decode access_token
  let g1 :=
    match token_info with
    | some info =>
      match info.exp with
      | some exp_timestamp => { g with token_metadata := some (o.formatTime exp_timestamp) }
      | none => g
    | none => g
  { g1 with atlassian_access_token := some access_token }

/-- `need_atlassian_token_async` including its `requires_access_token`
decorator: the flow may surface authorization-URL events, then either
raises or hands the minted token to the body. -/
def need_atlassian_token_async (o : Oracle) (g : GState) :
    List QItem × Except String (String × GState) :=
  let url_events := o.flow.urls.map (fun u => QItem.text ("Authorization url: " ++ u))
  match o.flow.outcome with
  | Except.error e => (url_events, Except.error e)
  | Except.ok access_token =>
    (url_events, Except.ok (access_token, need_token_body o access_token g))

/-! ## get_atlassian_cloud_id (source 120–132) -/

/-- The pure part of `get_atlassian_cloud_id`: given the lookup response,
take the first resource's `id` when the status is 200 and the array is
non-empty, else `None`. -/
def cloudIdOfResponse (response : AccessibleResourcesResponse) : Option String :=
  if response.status_code = HTTP_OK then
    match response.resources with
    | first :: _ => some first.id
    | [] => none
  else none

/-- `get_atlassian_cloud_id`: perform the accessible-resources GET (which
may raise) and extract the cloud id from the response. -/
def get_atlassian_cloud_id (o : Oracle) (access_token : String) :
    Except String (Option String) :=
  match o.accessible access_token with
  | Except.error e => Except.error e
  | Except.ok response => Except.ok (cloudIdOfResponse response)

/-! ## handle_authentication (source 383–412) -/

/-- `handle_authentication`: announce the flow, run the decorated token
acquisition and the cloud-id resolution inside `try`, and report the
outcome.  Returns the events put on the queue (in order), the boolean
result, and the updated globals. -/
def handle_authentication (o : Oracle) (g : GState) :
    List QItem × Bool × GState :=
  let tns := pyStr g.tool_name
  let ev0 := QItem.text
    ("Authentication required for " ++ tns ++ " access. Starting authorization flow...")
  match need_atlassian_token_async o g with
  | (url_events, Except.error e) =>
    ([ev0] ++ url_events ++ [QItem.text ("Authentication failed: " ++ e)], false, g)
  | (url_events, Except.ok (access_token, g1)) =>
    let g2 := { g1 with atlassian_access_token := some access_token }
    match get_atlassian_cloud_id o access_token with
    | Except.error e =>
      ([ev0] ++ url_events ++ [QItem.text ("Authentication failed: " ++ e)], false, g2)
    | Except.ok cloud_id =>
      let g3 := { g2 with atlassian_cloud_id := cloud_id }
      match cloud_id with
      | some c =>
        ([ev0] ++ url_events ++
           [QItem.text ("Authentication successful! Atlassian Cloud ID: " ++ c),
            QItem.text ("Retrying " ++ tns ++ "...")], true, g3)
      | none =>
        ([ev0] ++ url_events ++ [QItem.text "Failed to obtain Atlassian Cloud ID"],
         false, g3)

/-! ## agent_task (source 415–433) and agent_invocation (source 471–491) -/

/-- The observable outcome of one complete `agent_task` run: the events
put on the queue before the `finally: finish()`, the inputs of the agent
invocations performed (in order), and the final globals. -/
structure TaskRun where
  events : List QItem
  callLog : List String
  g : GState
deriving DecidableEq

/-- `agent_task`: run the agent, classify its text, authenticate and
retry exactly once when needed, and convert any exception to an
`"Error: ..."` event; the `finally` block (calling `finish()`) is applied
by `agent_invocation` below. -/
def agent_task (o : Oracle) (user_message : String) (g : GState) : TaskRun :=
  match o.agent 0 user_message with
  | Except.error e =>
    { events := [QItem.text "Begin agent execution", QItem.text ("Error: " ++ e)],
      callLog := [user_message], g := g }
  | Except.ok response =>
    if needs_authentication (extract_response_text response) then
      let ha := handle_authentication o g
      if ha.2.1 then
        match o.agent 1 user_message with
        | Except.error e =>
          { events := [QItem.text "Begin agent execution"] ++ ha.1 ++
              [QItem.text ("Error: " ++ e)],
            callLog := [user_message, user_message], g := ha.2.2 }
        | Except.ok response2 =>
          { events := [QItem.text "Begin agent execution"] ++ ha.1 ++
              [QItem.msg response2, QItem.text "End agent execution"],
            callLog := [user_message, user_message], g := ha.2.2 }
      else
        { events := [QItem.text "Begin agent execution"] ++ ha.1 ++
            [QItem.msg response, QItem.text "End agent execution"],
          callLog := [user_message], g := ha.2.2 }
    else
      { events := [QItem.text "Begin agent execution", QItem.msg response,
          QItem.text "End agent execution"],
        callLog := [user_message], g := g }

/-- The module state relevant to the entrypoint: the single module-level
StreamingQueue (its flag and buffer) and the globals. -/
structure ModState where
  qFinished : Bool
  qBuf : List (Option QItem)
  g : GState
deriving DecidableEq

/-- `agent_invocation`: read the prompt from the payload, spawn
`agent_task`, and hand the caller a stream over the module-level queue.
Modelled at the scheduling in which the spawned task runs to completion
before the returned stream is drained (one admissible interleaving of the
cooperative scheduler); the task's events are appended to the shared
buffer and its `finally: finish()` sets the flag and appends the
sentinel. -/
def agent_invocation (o : Oracle) (payload : Option String) (m : ModState) : ModState :=
  let user_message := payload.getD "No prompt found in input"
  let r := agent_task o user_message m.g
  { qFinished := true, qBuf := m.qBuf ++ r.events.map some ++ [none], g := r.g }

/-! ## Confluence tool functions (source 160–297)

Each tool's HTTP response is supplied as an oracle argument; the list of
`HttpReq` values returned records, in order, the HTTP requests the tool
actually performed. -/

/-- A page entry of the search response; `space_name` and `excerpt` model
the `.get(...)` defaults, `webui` the mandatory `_links.webui` field. -/
structure SearchPage where
  id : String
  title : String
  space_name : Option String
  excerpt : Option String
  webui : String
deriving DecidableEq

/-- Parsed body of the CQL search response. -/
structure SearchBody where
  totalSize : Option Nat
  results : List SearchPage
deriving DecidableEq

/-- Parsed body of the v2 page-by-id response. -/
structure PageBody where
  id : Option String
  title : Option String
  spaceId : Option String
  version_number : Option Nat
  body_value : Option String
  status : Option String
deriving DecidableEq

/-- An entry of the v2 spaces listing; the program reads `.get("id")`. -/
structure SpaceEntry where
  id : Option String
deriving DecidableEq

/-- Parsed body of the v2 spaces listing. -/
structure SpacesBody where
  results : List SpaceEntry
deriving DecidableEq

/-- Parsed body of the v2 page-creation response. -/
structure CreateBody where
  id : Option String
  title : Option String
deriving DecidableEq

/-- An HTTP response as the tools observe it: status code, parsed JSON
body, and raw text (used in error responses). -/
structure HttpResp (β : Type) where
  status_code : Nat
  body : β
  text : String
deriving DecidableEq

/-- The JSON payload posted by `create_confluence_page`. -/
structure CreatePayload where
  spaceId : String
  status : String
  title : String
  value : String
  parentId : Option String
deriving DecidableEq

/-- Record of one HTTP request performed by a tool. -/
inductive HttpReq
  | getSearch (url : String) (cql : String) (limit : Nat)
  | getPage (url : String)
  | getSpaces (url : String) (keys : String) (limit : Nat)
  | postCreate (url : String) (payload : CreatePayload)
deriving DecidableEq

/-- A tool's return value, structured as the JSON object the source
serialises with `json.dumps`. -/
inductive ToolResult
  | authRequired (message : String)
  | errorResp (error : String) (details : String)
  | searchSuccess (search_text : String) (total : Nat) (pages : List SearchPage)
  | pageSuccess (id : Option String) (title : Option String) (spaceId : Option String)
      (version : Nat) (content : String) (status : Option String)
  | createSuccess (message : String) (page_id : Option String)
      (page_title : Option String) (space_id : String)
deriving DecidableEq

/-- API base constant from the source. -/
def CONFLUENCE_API_BASE : String := "https://api.atlassian.com/ex/confluence"

/-- A single-quote character for building CQL strings. -/
def sglQuote : String := "\x27"

/-- `create_auth_required_response`: the auth-required JSON object naming
the tool. -/
def create_auth_required_response (t : String) : ToolResult :=
  ToolResult.authRequired ("Atlassian authentication is required for " ++ t ++ ".")

/-- `create_error_response`: the failure JSON object. -/
def create_error_response (error_message : String) (details : String) : ToolResult :=
  ToolResult.errorResp error_message details

/-- `search_confluence_by_text`: set the current tool name, guard on the
token, then run the CQL search against the supplied response. -/
def search_confluence_by_text (resp : HttpResp SearchBody) (g : GState)
    (search_text : String) (limit : Nat) : ToolResult × GState × List HttpReq :=
  let g := { g with tool_name := some "search_confluence_by_text" }
  if pyFalsy g.atlassian_access_token then
    (create_auth_required_response "search_confluence_by_text", g, [])
  else
    let cid := pyStr g.atlassian_cloud_id
    let cql := "type=page AND (title~" ++ sglQuote ++ search_text ++ sglQuote ++
      " OR text~" ++ sglQuote ++ search_text ++ sglQuote ++ ")"
    let api_url := CONFLUENCE_API_BASE ++ "/" ++ cid ++ "/wiki/rest/api/content/search"
    let req := HttpReq.getSearch api_url cql limit
    if resp.status_code = HTTP_OK then
      (ToolResult.searchSuccess search_text (resp.body.totalSize.getD 0)
        (resp.body.results.map (fun page =>
          { page with
            space_name := some (page.space_name.getD "N/A"),
            excerpt := some (page.excerpt.getD ""),
            webui := "https://" ++ cid ++ ".atlassian.net/wiki" ++ page.webui })),
       g, [req])
    else
      (create_error_response ("Failed to search pages: " ++ toString resp.status_code)
        resp.text, g, [req])

/-- `get_confluence_page`: set the current tool name, guard on the token,
then fetch the page against the supplied response. -/
def get_confluence_page (resp : HttpResp PageBody) (g : GState)
    (page_id : String) : ToolResult × GState × List HttpReq :=
  let g := { g with tool_name := some "get_confluence_page" }
  if pyFalsy g.atlassian_access_token then
    (create_auth_required_response "get_confluence_page", g, [])
  else
    let cid := pyStr g.atlassian_cloud_id
    let api_url := CONFLUENCE_API_BASE ++ "/" ++ cid ++ "/wiki/api/v2/pages/" ++ page_id
    let req := HttpReq.getPage api_url
    if resp.status_code = HTTP_OK then
      (ToolResult.pageSuccess resp.body.id resp.body.title resp.body.spaceId
        (resp.body.version_number.getD 1) (resp.body.body_value.getD "")
        resp.body.status, g, [req])
    else
      (create_error_response ("Failed to get page: " ++ toString resp.status_code)
        resp.text, g, [req])

/-- `get_space_id_by_key`: resolve a space key to a space id via the v2
spaces listing; returns the id (when any) and the request performed. -/
def get_space_id_by_key (resp : HttpResp SpacesBody) (g : GState)
    (space_key : String) : Option String × List HttpReq :=
  let cid := pyStr g.atlassian_cloud_id
  let api_url := CONFLUENCE_API_BASE ++ "/" ++ cid ++ "/wiki/api/v2/spaces"
  let req := HttpReq.getSpaces api_url space_key 1
  if resp.status_code = HTTP_OK then
    match resp.body.results with
    | s0 :: _ => (s0.id, [req])
    | [] => (none, [req])
  else (none, [req])

/-- `create_confluence_page`: set the current tool name, guard on the
token, resolve the space id, wrap non-HTML content in a paragraph tag,
and post the new page. -/
def create_confluence_page (spacesResp : HttpResp SpacesBody)
    (createResp : HttpResp CreateBody) (g : GState)
    (space_key title content : String) (parent_id : Option String) :
    ToolResult × GState × List HttpReq :=
  let g := { g with tool_name := some "create_confluence_page" }
  if pyFalsy g.atlassian_access_token then
    (create_auth_required_response "create_confluence_page", g, [])
  else
    let (space_id, reqs1) := get_space_id_by_key spacesResp g space_key
    if pyFalsy space_id then
      (create_error_response ("Space not found: " ++ space_key)
        "指定されたSpace Keyが見つかりません", g, reqs1)
    else
      let sid := space_id.getD ""
      let content := if strStarts "<" content then content else "<p>" ++ content ++ "</p>"
      let payload : CreatePayload :=
        { spaceId := sid, status := "current", title := title, value := content,
          parentId := parent_id }
      let cid := pyStr g.atlassian_cloud_id
      let api_url := CONFLUENCE_API_BASE ++ "/" ++ cid ++ "/wiki/api/v2/pages"
      let req := HttpReq.postCreate api_url payload
      if createResp.status_code = HTTP_OK then
        (ToolResult.createSuccess
          ("ページを作成しました: " ++ pyStr createResp.body.title)
          createResp.body.id createResp.body.title sid, g, reqs1 ++ [req])
      else
        (create_error_response ("Failed to create page: " ++ toString createResp.status_code)
          createResp.text, g, reqs1 ++ [req])

/-! ## Shared lemmas about the stream drain and helper operations -/

theorem strStarts_append (p r : String) : strStarts p (p ++ r) = true := by
  rw [strStarts]
  have h : (p ++ r).toList = p.toList ++ r.toList := by
    simp [String.toList, String.data_append]
  rw [h]
  exact isPref_append_self _ _

theorem none_not_mem_map_some {α : Type} (l : List α) :
    (none : Option α) ∉ l.map some := by
  simp

theorem streamRun_no_none {α : Type} (l : List (Option α))
    (h : (none : Option α) ∉ l) :
    streamRun true (l ++ [none]) = (l, [], true) := by
  induction l with
  | nil => simp [streamRun]
  | cons e es ih =>
    cases e with
    | none => exact absurd (List.mem_cons_self _ _) h
    | some a =>
      have h' : (none : Option α) ∉ es := fun hm => h (List.mem_cons_of_mem _ hm)
      simp [streamRun, ih h']

theorem StreamingQueue.putAll_spec {α : Type} (q : StreamingQueue α)
    (es : List (Option α)) :
    (q.putAll es).queue = q.queue ++ es ∧ (q.putAll es).finished = q.finished := by
  induction es generalizing q with
  | nil => simp [putAll]
  | cons e es ih =>
    have h := ih (q.put e)
    have hstep : q.putAll (e :: es) = (q.put e).putAll es := rfl
    refine ⟨?_, ?_⟩
    · rw [hstep, h.1]; simp [put]
    · rw [hstep, h.2]; simp [put]

/-! ## Concrete oracles used as test worlds -/

/-- An external world in which the agent always answers with the given
plain text and no authorization flow or HTTP request ever runs. -/
def oracleEcho (s : String) : Oracle :=
  { agent := fun _ _ => Except.ok (ResponseMessage.rawMsg s),
    flow := { urls := [], outcome := Except.error "flow unavailable" },
    accessible := fun _ => Except.error "request not sent",
    decode := fun _ => none,
    formatTime := fun _ => "" }

/-- An external world in which the agent always raises. -/
def oracleBoom : Oracle :=
  { agent := fun _ _ => Except.error "boom",
    flow := { urls := [], outcome := Except.error "flow unavailable" },
    accessible := fun _ => Except.error "request not sent",
    decode := fun _ => none,
    formatTime := fun _ => "" }

/-- An external world in which the first agent answer asks for
authentication, the flow mints a token, but the accessible-resources
lookup returns an empty array. -/
def oracleLookupEmpty : Oracle :=
  { agent := fun n _ => Except.ok (ResponseMessage.rawMsg
      (if n == 0 then "auth required" else "second answer")),
    flow := { urls := [], outcome := Except.ok "tok" },
    accessible := fun _ => Except.ok { status_code := 200, resources := [] },
    decode := fun _ => none,
    formatTime := fun _ => "" }

/-- An external world in which both agent answers are classified as
needing authentication, and the flow and the lookup both succeed. -/
def oracleAuthOk : Oracle :=
  { agent := fun n _ => Except.ok (ResponseMessage.rawMsg
      (if n == 0 then "please login" else "login still required")),
    flow := { urls := ["https://auth.example/consent"], outcome := Except.ok "tok2" },
    accessible := fun _ =>
      Except.ok { status_code := 200, resources := [{ id := "cloud1" }] },
    decode := fun _ => none,
    formatTime := fun _ => "" }

/-! ## C6 — the keyword classifier -/

/-- C6: `needs_authentication text` is true iff the lower-cased text
contains at least one lower-cased keyword of the fixed set (as a
contiguous substring), `needs_authentication "Please sign in first"` is
true, and `needs_authentication "Page created successfully"` is false.
Purity is by construction: the definition reads no state. -/
theorem needs_authentication_spec :
    (∀ t : String, needs_authentication t = true ↔
      ∃ kw ∈ AUTH_KEYWORDS, ∃ l r : List Char, pyLower t = l ++ pyLower kw ++ r) ∧
    needs_authentication "Please sign in first" = true ∧
    needs_authentication "Page created successfully" = false := by
  refine ⟨fun t => ?_, by decide, by decide⟩
  rw [needs_authentication, List.any_eq_true]
  constructor
  · rintro ⟨kw, hkw, hsub⟩
    exact ⟨kw, hkw, (isSub_iff _ _).mp hsub⟩
  · rintro ⟨kw, hkw, l, r, hlr⟩
    exact ⟨kw, hkw, (isSub_iff _ _).mpr ⟨l, r, hlr⟩⟩

/-! ## C3 — StreamingQueue FIFO delivery and the sentinel check -/

/-- C3 counterexample: on a fresh queue, `put(None); put(0); finish()`
followed by `stream()` yields nothing at all — the legitimate event equal
to the sentinel's representation ends the stream at once, because
`finished` is already true by the time the consumer dequeues it — so the
stream is not `e1, e2` as the claim requires. -/
theorem streamingQueue_sentinel_event_lost :
    (streamRun
        (((StreamingQueue.init.put (none : Option Nat)).put (some 0)).finish).finished
        (((StreamingQueue.init.put (none : Option Nat)).put (some 0)).finish).queue).1
      = [] ∧
    ([] : List (Option Nat)) ≠ [none, some 0] := by
  exact ⟨rfl, by decide⟩

/-- C3 amended: for every sequence of events NONE OF WHICH equals the
sentinel's representation, `put(e1)...put(en); finish()` on a fresh queue
makes `stream()` yield exactly `e1...en` in FIFO order, consume the whole
buffer, and terminate (for all n ≥ 0).  The flag check protects
sentinel-valued events only when they are dequeued before `finish()` has
run; once `finish()` precedes the drain, a sentinel-valued event ends the
stream (see the counterexample). -/
theorem streamingQueue_fifo {α : Type} (es : List (Option α))
    (h : (none : Option α) ∉ es) :
    streamRun ((StreamingQueue.init.putAll es).finish).finished
        ((StreamingQueue.init.putAll es).finish).queue = (es, [], true) := by
  have hq := StreamingQueue.putAll_spec (StreamingQueue.init (α := α)) es
  have h1 : ((StreamingQueue.init.putAll es).finish).queue = es ++ [none] := by
    show (StreamingQueue.init.putAll es).queue ++ [none] = es ++ [none]
    rw [hq.1]
    rfl
  have h2 : ((StreamingQueue.init.putAll es).finish).finished = true := rfl
  rw [h1, h2]
  exact streamRun_no_none es h

/-- Witness for the amended C3 at a concrete two-event sequence. -/
theorem streamingQueue_fifo_witness :
    ((none : Option Nat) ∉ [some 1, some 2]) ∧
    streamRun ((StreamingQueue.init.putAll [some 1, some 2]).finish).finished
        ((StreamingQueue.init.putAll [some 1, some 2]).finish).queue
      = ([some 1, some 2], [], true) :=
  ⟨by decide, streamingQueue_fifo [some 1, some 2] (by decide)⟩

/-! ## C8 — tenant (cloud id) resolution -/

theorem cloudIdOfResponse_eq_some (r : AccessibleResourcesResponse) (i : String) :
    cloudIdOfResponse r = some i ↔
      (r.status_code = HTTP_OK ∧
        ∃ first rest, r.resources = first :: rest ∧ first.id = i) := by
  unfold cloudIdOfResponse
  by_cases hs : r.status_code = HTTP_OK
  · cases hres : r.resources with
    | nil => simp [hs, hres]
    | cons f rest =>
      simp only [hs, if_true, hres, Option.some.injEq, true_and]
      constructor
      · intro hid
        exact ⟨f, rest, rfl, hid⟩
      · rintro ⟨f', rest', hcons, hid⟩
        injection hcons with h1 h2
        subst h1
        exact hid
  · simp [hs]

theorem cloudIdOfResponse_eq_none (r : AccessibleResourcesResponse) :
    cloudIdOfResponse r = none ↔
      (r.status_code ≠ HTTP_OK ∨ r.resources = []) := by
  unfold cloudIdOfResponse
  by_cases hs : r.status_code = HTTP_OK
  · cases hres : r.resources with
    | nil => simp [hs, hres]
    | cons f rest => simp [hs, hres]
  · simp [hs]

/-- C8: when the accessible-resources lookup returns a response, tenant
resolution yields the first resource descriptor's `id` exactly when the
status is HTTP 200 and the JSON array is non-empty; in every other case
(non-200 status or empty array) it returns no identifier. -/
theorem cloud_id_resolution_spec (o : Oracle) (tok : String)
    (r : AccessibleResourcesResponse) (h : o.accessible tok = Except.ok r) :
    (∀ i : String, get_atlassian_cloud_id o tok = Except.ok (some i) ↔
      (r.status_code = HTTP_OK ∧
        ∃ first rest, r.resources = first :: rest ∧ first.id = i)) ∧
    (get_atlassian_cloud_id o tok = Except.ok none ↔
      (r.status_code ≠ HTTP_OK ∨ r.resources = [])) := by
  have hg : get_atlassian_cloud_id o tok = Except.ok (cloudIdOfResponse r) := by
    simp [get_atlassian_cloud_id, h]
  rw [hg]
  constructor
  · intro i
    simp only [Except.ok.injEq]
    exact cloudIdOfResponse_eq_some r i
  · simp only [Except.ok.injEq]
    exact cloudIdOfResponse_eq_none r

/-- Witness for C8 at a concrete successful lookup. -/
theorem cloud_id_resolution_witness :
    (oracleAuthOk.accessible "tok2" =
      Except.ok { status_code := 200, resources := [{ id := "cloud1" }] }) ∧
    get_atlassian_cloud_id oracleAuthOk "tok2" = Except.ok (some "cloud1") :=
  ⟨rfl,
    ((cloud_id_resolution_spec oracleAuthOk "tok2"
        { status_code := 200, resources := [{ id := "cloud1" }] } rfl).1 "cloud1").mpr
      ⟨rfl, { id := "cloud1" }, [], rfl, rfl⟩⟩

/-! ## C9 — decode failure is tolerated and the token is still stored -/

/-- C9: token-metadata decoding never raises (every outcome of
`jwt.decode`, including a raised exception, is handled): when decoding
fails, `decode_token_info` returns the empty metadata dict, the globals
other than the stored token are untouched, and `need_atlassian_token_async`
still accepts and stores the token unchanged, emitting no error event
(its only events are the authorization-URL notices of the flow). -/
theorem decode_failure_tolerated (o : Oracle) (tok : String) (g : GState)
    (h : o.decode tok = none) :
    decode_token_info o.decode tok = none ∧
    need_token_body o tok g = { g with atlassian_access_token := some tok } ∧
    (o.flow.outcome = Except.ok tok →
      need_atlassian_token_async o g =
        (o.flow.urls.map (fun u => QItem.text ("Authorization url: " ++ u)),
         Except.ok (tok, { g with atlassian_access_token := some tok }))) := by
  have h1 : decode_token_info o.decode tok = none := by
    rw [decode_token_info, h]
  have h2 : need_token_body o tok g = { g with atlassian_access_token := some tok } := by
    simp only [need_token_body, h1]
  refine ⟨h1, h2, ?_⟩
  intro hf
  simp only [need_atlassian_token_async, hf, h2]

/-- Witness for C9 at a concrete world whose decode fails and whose flow
mints the token. -/
theorem decode_failure_tolerated_witness :
    (oracleAuthOk.decode "tok2" = none) ∧
    decode_token_info oracleAuthOk.decode "tok2" = none ∧
    need_token_body oracleAuthOk "tok2" initGState =
      { initGState with atlassian_access_token := some "tok2" } ∧
    need_atlassian_token_async oracleAuthOk initGState =
      ([QItem.text "Authorization url: https://auth.example/consent"],
       Except.ok ("tok2", { initGState with atlassian_access_token := some "tok2" })) := by
  have h := decode_failure_tolerated oracleAuthOk "tok2" initGState rfl
  exact ⟨rfl, h.1, h.2.1, by rw [h.2.2 rfl]; rfl⟩

/-! ## C2 — failure of the authentication gate -/

/-- Flow-raise case of `handle_authentication`, fully characterised:
the failure event is emitted and the globals are untouched. -/
theorem handle_authentication_flow_error (o : Oracle) (g : GState) (e : String)
    (h : o.flow.outcome = Except.error e) :
    handle_authentication o g =
      ([QItem.text ("Authentication required for " ++ pyStr g.tool_name ++
          " access. Starting authorization flow...")] ++
       o.flow.urls.map (fun u => QItem.text ("Authorization url: " ++ u)) ++
       [QItem.text ("Authentication failed: " ++ e)], false, g) := by
  simp only [handle_authentication, need_atlassian_token_async, h]

/-- C2 counterexample: in a world whose flow mints the token `"tok"` but
whose accessible-resources lookup returns an empty array, the gate
returns false — yet the process-wide access token has changed from
`None` to `"tok"` (and was therefore stored), contradicting the claim
that the state is the same after the call as before it. -/
theorem handle_authentication_failure_stores_token :
    (handle_authentication oracleLookupEmpty initGState).2.1 = false ∧
    initGState.atlassian_access_token = none ∧
    (handle_authentication oracleLookupEmpty initGState).2.2.atlassian_access_token
      = some "tok" := by
  exact ⟨rfl, rfl, rfl⟩

/-- C2 amended: when `handle_authentication` returns false it always
emits a failure status event, but the credential state is preserved only
in the flow-raise case; when the flow succeeds and the tenant lookup
returns no identifier, the gate still returns false, yet the new access
token HAS been stored and the tenant identifier has been overwritten
with `None`. -/
theorem handle_authentication_failure_spec (o : Oracle) (g : GState) :
    (∀ e, o.flow.outcome = Except.error e →
      (handle_authentication o g).2.1 = false ∧
      (handle_authentication o g).2.2 = g ∧
      QItem.text ("Authentication failed: " ++ e) ∈ (handle_authentication o g).1) ∧
    (∀ tok r, o.flow.outcome = Except.ok tok → o.accessible tok = Except.ok r →
      cloudIdOfResponse r = none →
      (handle_authentication o g).2.1 = false ∧
      QItem.text "Failed to obtain Atlassian Cloud ID" ∈ (handle_authentication o g).1 ∧
      (handle_authentication o g).2.2.atlassian_access_token = some tok ∧
      (handle_authentication o g).2.2.atlassian_cloud_id = none) := by
  constructor
  · intro e he
    rw [handle_authentication_flow_error o g e he]
    refine ⟨rfl, rfl, ?_⟩
    simp [List.mem_append]
  · intro tok r hf hacc hcloud
    have hcid : get_atlassian_cloud_id o tok = Except.ok none := by
      simp [get_atlassian_cloud_id, hacc, hcloud]
    refine ⟨?_, ?_, ?_, ?_⟩ <;>
      simp [handle_authentication, need_atlassian_token_async, hf, hcid]

/-! ## C5/C4 — orchestrator behaviour when the gate fails or succeeds -/

/-- The failure/error status texts the program can emit: the fixed
cloud-id failure message, `"Authentication failed: ..."`, and
`"Error: ..."`. -/
def isFailureStatus : QItem → Bool
  | QItem.text s =>
    s == "Failed to obtain Atlassian Cloud ID" ||
    strStarts "Authentication failed: " s || strStarts "Error: " s
  | QItem.msg _ => false

/-- Spec-side reading of C5's "the emitted result event ... followed by a
failure status event": some occurrence of the result-message event has a
failure status event strictly after it in the event list. -/
def resultFollowedByFailure (events : List QItem) (r : ResponseMessage) : Bool :=
  match events with
  | [] => false
  | e :: rest =>
    (decide (e = QItem.msg r) && rest.any isFailureStatus) ||
      resultFollowedByFailure rest r

/-- Whenever the authentication gate reports failure, one of the events
it emitted is a failure status event. -/
theorem handle_authentication_false_failure (o : Oracle) (g : GState)
    (h : (handle_authentication o g).2.1 = false) :
    (handle_authentication o g).1.any isFailureStatus = true := by
  rcases hout : o.flow.outcome with e | tok
  · rw [handle_authentication_flow_error o g e hout]
    simp [List.any_append, isFailureStatus, strStarts_append]
  · rcases hacc : o.accessible tok with e | r
    · have hcid : get_atlassian_cloud_id o tok = Except.error e := by
        simp [get_atlassian_cloud_id, hacc]
      simp [handle_authentication, need_atlassian_token_async, hout, hcid,
        List.any_append, isFailureStatus, strStarts_append]
    · rcases hc : cloudIdOfResponse r with _ | c
      · have hcid : get_atlassian_cloud_id o tok = Except.ok none := by
          simp [get_atlassian_cloud_id, hacc, hc]
        simp [handle_authentication, need_atlassian_token_async, hout, hcid,
          List.any_append, isFailureStatus]
      · have hcid : get_atlassian_cloud_id o tok = Except.ok (some c) := by
          simp [get_atlassian_cloud_id, hacc, hc]
        exfalso
        simp [handle_authentication, need_atlassian_token_async, hout, hcid] at h

/-- C5 counterexample: with a first result classified as needing auth and
a gate that fails (empty accessible-resources array), the orchestrator
invokes the task once and emits the first result — but the failure status
event (`"Failed to obtain Atlassian Cloud ID"`) PRECEDES the result
event; no failure status event follows it, so the claimed
"result event followed by a failure status event" is false on this run. -/
theorem agent_task_failure_event_precedes_result :
    (agent_task oracleLookupEmpty "hi" initGState).callLog = ["hi"] ∧
    (agent_task oracleLookupEmpty "hi" initGState).events =
      [QItem.text "Begin agent execution",
       QItem.text "Authentication required for None access. Starting authorization flow...",
       QItem.text "Failed to obtain Atlassian Cloud ID",
       QItem.msg (ResponseMessage.rawMsg "auth required"),
       QItem.text "End agent execution"] ∧
    resultFollowedByFailure (agent_task oracleLookupEmpty "hi" initGState).events
      (ResponseMessage.rawMsg "auth required") = false := by
  refine ⟨by decide, by decide, by decide⟩

/-- C5 amended: if the first result is classified as needing auth and the
gate returns false, the orchestrator invokes the task exactly once and
the stream carries a failure status event (emitted by the gate) BEFORE
the first invocation's result event, which is then followed only by the
end-of-execution status. -/
theorem agent_task_auth_failed_spec (o : Oracle) (m : String) (g : GState)
    (r1 : ResponseMessage) (h0 : o.agent 0 m = Except.ok r1)
    (hneed : needs_authentication (extract_response_text r1) = true)
    (hfail : (handle_authentication o g).2.1 = false) :
    (agent_task o m g).callLog = [m] ∧
    (agent_task o m g).events =
      [QItem.text "Begin agent execution"] ++ (handle_authentication o g).1 ++
        [QItem.msg r1, QItem.text "End agent execution"] ∧
    (handle_authentication o g).1.any isFailureStatus = true := by
  refine ⟨?_, ?_, handle_authentication_false_failure o g hfail⟩
  · simp [agent_task, h0, hneed, hfail]
  · simp [agent_task, h0, hneed, hfail]

/-- Witness for the amended C5 at the concrete failing-gate world. -/
theorem agent_task_auth_failed_witness :
    (oracleLookupEmpty.agent 0 "hi" = Except.ok (ResponseMessage.rawMsg "auth required")) ∧
    needs_authentication (extract_response_text (ResponseMessage.rawMsg "auth required")) = true ∧
    (handle_authentication oracleLookupEmpty initGState).2.1 = false ∧
    (agent_task oracleLookupEmpty "hi" initGState).callLog = ["hi"] :=
  ⟨rfl, by decide, rfl,
    (agent_task_auth_failed_spec oracleLookupEmpty "hi" initGState
      (ResponseMessage.rawMsg "auth required") rfl (by decide) rfl).1⟩

/-- C4: if the first result is classified as needing auth and the gate
returns true, the orchestrator invokes the task exactly twice with the
same input and the emitted result event is the second invocation's
result — with no assumption at all on the second result's text, so in
particular even when the second result would again be classified as
needing auth, no further retry occurs. -/
theorem agent_task_retry_once_spec (o : Oracle) (m : String) (g : GState)
    (r1 r2 : ResponseMessage) (h0 : o.agent 0 m = Except.ok r1)
    (hneed : needs_authentication (extract_response_text r1) = true)
    (hok : (handle_authentication o g).2.1 = true)
    (h1 : o.agent 1 m = Except.ok r2) :
    (agent_task o m g).callLog = [m, m] ∧
    (agent_task o m g).events =
      [QItem.text "Begin agent execution"] ++ (handle_authentication o g).1 ++
        [QItem.msg r2, QItem.text "End agent execution"] := by
  refine ⟨?_, ?_⟩
  · simp [agent_task, h0, hneed, hok, h1]
  · simp [agent_task, h0, hneed, hok, h1]

/-- Witness for C4 at a world in which BOTH results are classified as
needing auth and the gate succeeds: still exactly two invocations. -/
theorem agent_task_retry_once_witness :
    (oracleAuthOk.agent 0 "hi" = Except.ok (ResponseMessage.rawMsg "please login")) ∧
    needs_authentication (extract_response_text (ResponseMessage.rawMsg "please login")) = true ∧
    (handle_authentication oracleAuthOk initGState).2.1 = true ∧
    (oracleAuthOk.agent 1 "hi" = Except.ok (ResponseMessage.rawMsg "login still required")) ∧
    needs_authentication (extract_response_text (ResponseMessage.rawMsg "login still required")) = true ∧
    (agent_task oracleAuthOk "hi" initGState).callLog = ["hi", "hi"] :=
  ⟨rfl, by decide, rfl, rfl, by decide,
    (agent_task_retry_once_spec oracleAuthOk "hi" initGState
      (ResponseMessage.rawMsg "please login") (ResponseMessage.rawMsg "login still required")
      rfl (by decide) rfl rfl).1⟩

/-! ## C7 — nothing escapes the orchestrator -/

/-- C7: for every behaviour of the external world, the invocation's
channel reaches `finished = true` and its stream drain terminates (the
`finally` block always runs `finish()`); an exception raised by the first
task invocation, by the authorization flow, or by the retried task
invocation is converted into an error/failure status event on the
stream. -/
theorem agent_task_no_escape (o : Oracle) (p : Option String) (g : GState) :
    (agent_invocation o p { qFinished := false, qBuf := [], g := g }).qFinished = true ∧
    (streamRun (agent_invocation o p { qFinished := false, qBuf := [], g := g }).qFinished
       (agent_invocation o p { qFinished := false, qBuf := [], g := g }).qBuf).2.2 = true ∧
    (∀ e, o.agent 0 (p.getD "No prompt found in input") = Except.error e →
      QItem.text ("Error: " ++ e) ∈
        (agent_task o (p.getD "No prompt found in input") g).events) ∧
    (∀ r1 e, o.agent 0 (p.getD "No prompt found in input") = Except.ok r1 →
      needs_authentication (extract_response_text r1) = true →
      o.flow.outcome = Except.error e →
      QItem.text ("Authentication failed: " ++ e) ∈
        (agent_task o (p.getD "No prompt found in input") g).events) ∧
    (∀ r1 e, o.agent 0 (p.getD "No prompt found in input") = Except.ok r1 →
      needs_authentication (extract_response_text r1) = true →
      (handle_authentication o g).2.1 = true →
      o.agent 1 (p.getD "No prompt found in input") = Except.error e →
      QItem.text ("Error: " ++ e) ∈
        (agent_task o (p.getD "No prompt found in input") g).events) := by
  refine ⟨rfl, ?_, ?_, ?_, ?_⟩
  · have h := streamRun_no_none
      ((agent_task o (p.getD "No prompt found in input") g).events.map some)
      (none_not_mem_map_some _)
    simp [agent_invocation, h]
  · intro e he
    simp [agent_task, he]
  · intro r1 e h0 hneed hflow
    have hha := handle_authentication_flow_error o g e hflow
    have hfalse : (handle_authentication o g).2.1 = false := by rw [hha]
    simp [agent_task, h0, hneed, hfalse, hha, List.mem_append]
  · intro r1 e h0 hneed hok h1e
    simp [agent_task, h0, hneed, hok, h1e, List.mem_append]

/-- Witness for C7 at a world whose task raises on its first call. -/
theorem agent_task_no_escape_witness :
    (oracleBoom.agent 0 "hi" = Except.error "boom") ∧
    (agent_invocation oracleBoom (some "hi")
      { qFinished := false, qBuf := [], g := initGState }).qFinished = true ∧
    QItem.text ("Error: " ++ "boom") ∈ (agent_task oracleBoom "hi" initGState).events :=
  ⟨rfl, (agent_task_no_escape oracleBoom (some "hi") initGState).1,
   (agent_task_no_escape oracleBoom (some "hi") initGState).2.2.1 "boom" rfl⟩

/-! ## C1 — the module-level channel is shared between invocations -/

/-- C1 counterexample: both invocations write to the single module-level
queue.  Run invocation one (whose stream is not drained), then invocation
two; draining the stream after invocation two yields exactly invocation
one's events — including its result event `"hello one"`, an event that
invocation two's own task never enqueued — and stops at invocation one's
sentinel, leaving invocation two's events undelivered.  So the channels
are neither exclusively owned nor independent. -/
theorem invocation_channel_sharing_cex :
    (streamRun
        (agent_invocation (oracleEcho "hello two") (some "hi")
          (agent_invocation (oracleEcho "hello one") (some "hi")
            { qFinished := false, qBuf := [], g := initGState })).qFinished
        (agent_invocation (oracleEcho "hello two") (some "hi")
          (agent_invocation (oracleEcho "hello one") (some "hi")
            { qFinished := false, qBuf := [], g := initGState })).qBuf).1 =
      [some (QItem.text "Begin agent execution"),
       some (QItem.msg (ResponseMessage.rawMsg "hello one")),
       some (QItem.text "End agent execution")] ∧
    QItem.msg (ResponseMessage.rawMsg "hello one") ∈
      (agent_task (oracleEcho "hello one") "hi" initGState).events ∧
    QItem.msg (ResponseMessage.rawMsg "hello one") ∉
      (agent_task (oracleEcho "hello two") "hi" initGState).events := by
  refine ⟨by decide, by decide, by decide⟩

/-- C1 amended: all invocations share the single module-level channel, so
exclusive ownership fails (see the counterexample); what does hold is
independence under full draining: any invocation started while the shared
buffer is empty has its stream yield exactly its own events, terminate,
and leave the buffer empty again for the next invocation. -/
theorem invocation_drain_exclusive (o : Oracle) (p : Option String) (q0 : Bool)
    (g : GState) :
    streamRun
        (agent_invocation o p { qFinished := q0, qBuf := [], g := g }).qFinished
        (agent_invocation o p { qFinished := q0, qBuf := [], g := g }).qBuf =
      ((agent_task o (p.getD "No prompt found in input") g).events.map some,
       [], true) := by
  have h := streamRun_no_none
    ((agent_task o (p.getD "No prompt found in input") g).events.map some)
    (none_not_mem_map_some _)
  simp [agent_invocation, h]

/-! ## C10 — the tools' token guard -/

/-- C10: when the process-wide access token is unset (`None` or empty),
each of the three tools performs no HTTP request, returns the
auth-required response naming that tool, and leaves every global except
the current-tool-name flag unchanged. -/
theorem tools_auth_guard (g : GState) (sr : HttpResp SearchBody)
    (pr : HttpResp PageBody) (spr : HttpResp SpacesBody) (cr : HttpResp CreateBody)
    (stext : String) (lim : Nat) (pid skey ttl cnt : String) (par : Option String)
    (h : pyFalsy g.atlassian_access_token = true) :
    search_confluence_by_text sr g stext lim =
      (create_auth_required_response "search_confluence_by_text",
       { g with tool_name := some "search_confluence_by_text" }, []) ∧
    get_confluence_page pr g pid =
      (create_auth_required_response "get_confluence_page",
       { g with tool_name := some "get_confluence_page" }, []) ∧
    create_confluence_page spr cr g skey ttl cnt par =
      (create_auth_required_response "create_confluence_page",
       { g with tool_name := some "create_confluence_page" }, []) := by
  refine ⟨?_, ?_, ?_⟩
  · simp [search_confluence_by_text, h]
  · simp [get_confluence_page, h]
  · simp [create_confluence_page, h]

/-- Concrete dummy responses for the C10 witness. -/
def dummySearchResp : HttpResp SearchBody :=
  { status_code := 500, body := { totalSize := none, results := [] }, text := "err" }

/-- Dummy page response for the C10 witness. -/
def dummyPageResp : HttpResp PageBody :=
  { status_code := 500,
    body := { id := none, title := none, spaceId := none, version_number := none,
              body_value := none, status := none },
    text := "err" }

/-- Dummy spaces response for the C10 witness. -/
def dummySpacesResp : HttpResp SpacesBody :=
  { status_code := 500, body := { results := [] }, text := "err" }

/-- Dummy create response for the C10 witness. -/
def dummyCreateResp : HttpResp CreateBody :=
  { status_code := 500, body := { id := none, title := none }, text := "err" }

/-- Witness for C10 on the initial globals (token unset). -/
theorem tools_auth_guard_witness :
    (pyFalsy initGState.atlassian_access_token = true) ∧
    search_confluence_by_text dummySearchResp initGState "q" 10 =
      (create_auth_required_response "search_confluence_by_text",
       { initGState with tool_name := some "search_confluence_by_text" }, []) :=
  ⟨rfl, (tools_auth_guard initGState dummySearchResp dummyPageResp dummySpacesResp
      dummyCreateResp "q" 10 "p" "k" "t" "c" none rfl).1⟩

/-- Witness for the amended C2: a concrete flow-raise world in which the
gate preserves the globals, and a concrete empty-lookup world in which
the gate reports failure with the token already stored. -/
theorem c2_amended_witness :
    ((oracleEcho "x").flow.outcome = Except.error "flow unavailable" ∧
     (handle_authentication (oracleEcho "x") initGState).2.2 = initGState) ∧
    (oracleLookupEmpty.flow.outcome = Except.ok "tok" ∧
     (handle_authentication oracleLookupEmpty initGState).2.2.atlassian_access_token
       = some "tok") :=
  ⟨⟨rfl, ((handle_authentication_failure_spec (oracleEcho "x") initGState).1
      "flow unavailable" rfl).2.1⟩,
   ⟨rfl, ((handle_authentication_failure_spec oracleLookupEmpty initGState).2
      "tok" { status_code := 200, resources := [] } rfl rfl rfl).2.2.1⟩⟩
